import Mathlib

/-!
Shallow embedding of the AD-Compliance-System repository:
`src/ad_compliance_schema.py` (data model and constraint matchers) and
`src/ad_compliance_engine.py` (the evaluation pipeline, fleet aggregation
and rule loading). Python strings are modelled as Lean `String`; Python
`int` as `Int`; possibly-missing JSON keys as `Option`. Python `str.lower`
is modelled on ASCII letters, which covers every string the engine builds.
-/

namespace ADCompliance

/-- Whitespace characters recognised by the model of Python `str.strip`. -/
def pythonIsSpace (c : Char) : Bool :=
  c = ' ' || c = '\t' || c = '\n' || c = '\r' || c = '\x0B' || c = '\x0C'

/-- Model of Python `str.strip`: drop leading and trailing whitespace. -/
def pyStrip (s : String) : String :=
  String.mk (((s.toList.dropWhile pythonIsSpace).reverse.dropWhile pythonIsSpace).reverse)

/-- Model of Python `str.lower`: lower-case every character. -/
def pyLower (s : String) : String :=
  String.mk (s.toList.map Char.toLower)

/-- Contiguous-substring containment on character lists. -/
def listContainsSub (needle : List Char) : List Char → Bool
  | [] => needle.isEmpty
  | c :: rest => needle.isPrefixOf (c :: rest) || listContainsSub needle rest

/-- Model of the Python containment test `needle in hay` on strings. -/
def pyIn (needle hay : String) : Bool :=
  listContainsSub needle.toList hay.toList

/-! Data model, from `src/ad_compliance_schema.py`. -/

/-- `MSNConstraintType` (schema lines 13-17): the three kinds of MSN constraint. -/
inductive MSNConstraintType where
  | RANGE
  | LIST
  | ALL
deriving DecidableEq

/-- `MSNConstraint` (schema lines 20-32). In Python the three data fields
default to `None`; every constructor call here passes them explicitly. -/
structure MSNConstraint where
  type : MSNConstraintType
  min_msn : Option Int
  max_msn : Option Int
  msn_list : Option (List Int)
deriving DecidableEq

/-- `MSNConstraint.matches` (schema lines 34-46). The trailing
`return False` of the Python body is unreachable: the enum has
exactly the three kinds matched here. -/
def MSNConstraint.matches (c : MSNConstraint) (msn : Int) : Bool :=
  match c.type with
  | MSNConstraintType.ALL => true
  | MSNConstraintType.RANGE =>
    if (match c.min_msn with | some m => decide (msn < m) | none => false) then false
    else if (match c.max_msn with | some m => decide (msn > m) | none => false) then false
    else true
  | MSNConstraintType.LIST => decide (msn ∈ c.msn_list.getD [])

/-- `ModificationConstraint` (schema lines 49-60); `aliases` defaults to `[]`
and `description` to `None` in Python. -/
structure ModificationConstraint where
  mod_id : String
  aliases : List String
  description : Option String
deriving DecidableEq

/-- `ModificationConstraint.matches` (schema lines 62-70): the probed text is
lower-cased and stripped; `mod_id` and each alias are lower-cased only. -/
def ModificationConstraint.matches (c : ModificationConstraint) (modification : String) : Bool :=
  let mod_lower := pyStrip (pyLower modification)
  if pyIn (pyLower c.mod_id) mod_lower then true
  else c.aliases.any (fun al => pyIn (pyLower al) mod_lower)

/-- `ApplicabilityRules` (schema lines 73-105). `additional_constraints` is an
untyped JSON map in Python, never read by the engine; its values are modelled
as strings. -/
structure ApplicabilityRules where
  aircraft_models : List String
  msn_constraints : Option MSNConstraint
  excluded_if_modifications : List ModificationConstraint
  required_modifications : List ModificationConstraint
  additional_constraints : List (String × String)
deriving DecidableEq

/-- `AirworthinessDirective` (schema lines 108-123). -/
structure AirworthinessDirective where
  ad_id : String
  issuing_authority : String
  title : Option String
  effective_date : Option String
  applicability_rules : ApplicabilityRules
  summary : Option String
deriving DecidableEq

/-- `AircraftConfiguration` (schema lines 140-153); `additional_info` is an
untyped JSON map in Python, never read by the engine. -/
structure AircraftConfiguration where
  aircraft_model : String
  msn : Int
  modifications : List String
  additional_info : List (String × String)
deriving DecidableEq

/-- `ComplianceResult` (schema lines 166-175). -/
structure ComplianceResult where
  ad_id : String
  aircraft_model : String
  msn : Int
  is_affected : Bool
  status : String
  reason : String
deriving DecidableEq

/-! Decision engine, from `src/ad_compliance_engine.py`. The engine object
holds only the list `self.ads`; it is passed explicitly where needed. -/

/-- `ADComplianceEngine.check_aircraft_model` (engine lines 63-72). -/
def check_aircraft_model (a : AircraftConfiguration) (ad : AirworthinessDirective) :
    Bool × String :=
  if a.aircraft_model ∈ ad.applicability_rules.aircraft_models then
    (true, "Aircraft model \x27" ++ a.aircraft_model ++ "\x27 is in the affected models list")
  else
    (false, "Aircraft model \x27" ++ a.aircraft_model ++ "\x27 is not in the affected models list")

/-- `ADComplianceEngine.check_msn_constraints` (engine lines 74-87). -/
def check_msn_constraints (a : AircraftConfiguration) (ad : AirworthinessDirective) :
    Bool × String :=
  match ad.applicability_rules.msn_constraints with
  | none => (true, "No MSN constraints specified")
  | some c =>
    if c.matches a.msn then (true, "MSN " ++ toString a.msn ++ " meets the constraints")
    else (false, "MSN " ++ toString a.msn ++ " does not meet the constraints")

/-- The nested loops of `check_excluded_modifications` (engine lines 96-99):
first excluded constraint, in list order, matching some aircraft modification,
paired with the first aircraft modification it matches. -/
def find_excluded_match (excluded : List ModificationConstraint) (mods : List String) :
    Option (ModificationConstraint × String) :=
  match excluded with
  | [] => none
  | em :: rest =>
    match mods.find? (fun am => em.matches am) with
    | some am => some (em, am)
    | none => find_excluded_match rest mods

/-- `ADComplianceEngine.check_excluded_modifications` (engine lines 89-103). -/
def check_excluded_modifications (a : AircraftConfiguration) (ad : AirworthinessDirective) :
    Bool × String :=
  match find_excluded_match ad.applicability_rules.excluded_if_modifications a.modifications with
  | some p =>
    (true, "Aircraft has excluded modification: " ++ p.1.mod_id ++ " (matched: " ++ p.2 ++ ")")
  | none =>
    if !ad.applicability_rules.excluded_if_modifications.isEmpty then
      (false, "Aircraft does not have any excluded modifications")
    else
      (false, "No excluded modifications specified")

/-- The loops of `check_required_modifications` (engine lines 115-118): first
required constraint, in list order, matched by some aircraft modification. -/
def find_required_match (required : List ModificationConstraint) (mods : List String) :
    Option ModificationConstraint :=
  match required with
  | [] => none
  | rm :: rest =>
    if mods.any (fun am => rm.matches am) then some rm
    else find_required_match rest mods

/-- `ADComplianceEngine.check_required_modifications` (engine lines 105-120). -/
def check_required_modifications (a : AircraftConfiguration) (ad : AirworthinessDirective) :
    Bool × String :=
  if ad.applicability_rules.required_modifications.isEmpty then
    (true, "No required modifications specified")
  else
    match find_required_match ad.applicability_rules.required_modifications a.modifications with
    | some rm => (true, "Aircraft has required modification: " ++ rm.mod_id)
    | none => (false, "Aircraft does not have any of the required modifications")

/-- `ADComplianceEngine.evaluate` (engine lines 122-195): the four ordered,
short-circuiting stages, each appending one labelled entry to the reason list. -/
def evaluate (a : AircraftConfiguration) (ad : AirworthinessDirective) : ComplianceResult :=
  let mres := check_aircraft_model a ad
  let reasons : List String := ["Model check: " ++ mres.2]
  if !mres.1 then
    ⟨ad.ad_id, a.aircraft_model, a.msn, false, "not applicable",
      String.intercalate "; " reasons⟩
  else
    let sres := check_msn_constraints a ad
    let reasons := reasons ++ ["MSN check: " ++ sres.2]
    if !sres.1 then
      ⟨ad.ad_id, a.aircraft_model, a.msn, false, "not applicable",
        String.intercalate "; " reasons⟩
    else
      let eres := check_excluded_modifications a ad
      let reasons := reasons ++ ["Excluded mods check: " ++ eres.2]
      if eres.1 then
        ⟨ad.ad_id, a.aircraft_model, a.msn, false, "no",
          String.intercalate "; " reasons⟩
      else
        let rres := check_required_modifications a ad
        let reasons := reasons ++ ["Required mods check: " ++ rres.2]
        if !rres.1 then
          ⟨ad.ad_id, a.aircraft_model, a.msn, false, "no",
            String.intercalate "; " reasons⟩
        else
          ⟨ad.ad_id, a.aircraft_model, a.msn, true, "yes",
            String.intercalate "; " reasons⟩

/-- `ADComplianceEngine.evaluate_all` (engine lines 197-208): one result per
loaded directive, in load order. -/
def evaluate_all (ads : List AirworthinessDirective) (a : AircraftConfiguration) :
    List ComplianceResult :=
  ads.map (fun ad => evaluate a ad)

/-- The fleet dictionary key `f"{aircraft.aircraft_model}-{aircraft.msn}"`
of engine line 219. -/
def aircraft_key (a : AircraftConfiguration) : String :=
  a.aircraft_model ++ "-" ++ toString a.msn

/-- Python dict assignment `d[k] = v` on an insertion-ordered dictionary
modelled as an association list: overwrite in place, else append. -/
def dictInsert (d : List (String × List ComplianceResult)) (k : String)
    (v : List ComplianceResult) : List (String × List ComplianceResult) :=
  if d.any (fun p => p.1 == k) then
    d.map (fun p => if p.1 == k then (k, v) else p)
  else
    d ++ [(k, v)]

/-- `ADComplianceEngine.evaluate_fleet` (engine lines 210-221). -/
def evaluate_fleet (ads : List AirworthinessDirective) (fleet : List AircraftConfiguration) :
    List (String × List ComplianceResult) :=
  fleet.foldl (fun d a => dictInsert d (aircraft_key a) (evaluate_all ads a)) []

/-! Rule loading, from `ADComplianceEngine.load_rules` (engine lines 35-61).
The JSON objects read from the rules file are modelled as `Raw...` records,
with `Option` marking keys that may be missing or null; the pydantic
validation triggered by the constructor calls inside the loop is modelled by
the `validate...` functions below. -/

/-- Failure raised while building a schema object from raw data: a required
key is missing, or a constraint kind is not one of the enum's values. -/
inductive LoadError where
  | missingField (field : String)
  | unknownKind (kind : String)
deriving DecidableEq

/-- Raw JSON object for a modification constraint. -/
structure RawModification where
  mod_id : Option String
  aliases : Option (List String)
  description : Option String
deriving DecidableEq

/-- Raw JSON object for an MSN constraint; `type` is a string tag. -/
structure RawMSNConstraint where
  type : Option String
  min_msn : Option Int
  max_msn : Option Int
  msn_list : Option (List Int)
deriving DecidableEq

/-- Raw JSON object for the `applicability_rules` key. -/
structure RawApplicabilityRules where
  aircraft_models : Option (List String)
  msn_constraints : Option RawMSNConstraint
  excluded_if_modifications : Option (List RawModification)
  required_modifications : Option (List RawModification)
  additional_constraints : Option (List (String × String))
deriving DecidableEq

/-- Raw JSON object for one directive definition. -/
structure RawAd where
  ad_id : Option String
  issuing_authority : Option String
  title : Option String
  effective_date : Option String
  applicability_rules : Option RawApplicabilityRules
  summary : Option String
deriving DecidableEq

/-- Pydantic construction `ModificationConstraint(**mod)`: `mod_id` is a
required field, `aliases` defaults to `[]`, `description` to `None`. -/
def validateModification (r : RawModification) : Except LoadError ModificationConstraint :=
  match r.mod_id with
  | none => Except.error (LoadError.missingField "mod_id")
  | some i => Except.ok ⟨i, r.aliases.getD [], r.description⟩

/-- Pydantic validation of the `MSNConstraintType` enum value: exactly the
strings "range", "list" and "all" are accepted. -/
def parseMSNConstraintType (s : String) : Except LoadError MSNConstraintType :=
  if s = "range" then Except.ok MSNConstraintType.RANGE
  else if s = "list" then Except.ok MSNConstraintType.LIST
  else if s = "all" then Except.ok MSNConstraintType.ALL
  else Except.error (LoadError.unknownKind s)

/-- Pydantic construction `MSNConstraint(**data)`: `type` is required and must
be a recognised kind; the data fields default to `None`. -/
def validateMSNConstraint (r : RawMSNConstraint) : Except LoadError MSNConstraint :=
  match r.type with
  | none => Except.error (LoadError.missingField "type")
  | some s => Except.map (fun t => ⟨t, r.min_msn, r.max_msn, r.msn_list⟩) (parseMSNConstraintType s)

/-- One iteration of the `load_rules` loop body (engine lines 40-60): convert
the nested constraint objects, then build the directive, whose
`applicability_rules.aircraft_models` is a required field. -/
def validateAd (r : RawAd) : Except LoadError AirworthinessDirective :=
  match r.applicability_rules with
  | none => Except.error (LoadError.missingField "applicability_rules")
  | some rr => do
    let excl ← (rr.excluded_if_modifications.getD []).mapM validateModification
    let req ← (rr.required_modifications.getD []).mapM validateModification
    let msnc ← match rr.msn_constraints with
      | none => Except.ok (Option.none (α := MSNConstraint))
      | some rm => Except.map some (validateMSNConstraint rm)
    match r.ad_id, r.issuing_authority, rr.aircraft_models with
    | none, _, _ => Except.error (LoadError.missingField "ad_id")
    | _, none, _ => Except.error (LoadError.missingField "issuing_authority")
    | _, _, none => Except.error (LoadError.missingField "aircraft_models")
    | some adId, some auth, some models =>
      Except.ok ⟨adId, auth, r.title, r.effective_date,
        ⟨models, msnc, excl, req, rr.additional_constraints.getD []⟩, r.summary⟩

/-- `load_rules` (engine lines 35-61) with the mutation of `self.ads` made
explicit: starting from the current collection `ads`, each raw entry is
validated and appended in turn; the first validation failure stops the loop
(the Python exception propagates) and is returned alongside the collection as
it stands at that moment. -/
def load_rules_from (ads : List AirworthinessDirective) :
    List RawAd → List AirworthinessDirective × Option LoadError
  | [] => (ads, none)
  | r :: rest =>
    match validateAd r with
    | Except.ok ad => load_rules_from (ads ++ [ad]) rest
    | Except.error e => (ads, some e)

/-! Definitions written from the spec's words, for comparison with the source
definitions above. -/

/-- The spec's reading of `ModificationConstraint.matches` (spec section 4.1):
the text, the id and every alias all undergo the same normalisation, trimming
surrounding whitespace and case-folding, before substring containment. -/
def modificationMatchesSpec (c : ModificationConstraint) (text : String) : Bool :=
  let t := pyLower (pyStrip text)
  pyIn (pyLower (pyStrip c.mod_id)) t ||
    c.aliases.any (fun al => pyIn (pyLower (pyStrip al)) t)

/-- The spec's reason-trail characterisation (spec section 4.2): one labelled
entry per executed stage, in stage order, nothing after a short-circuit. -/
def stage_trail (a : AircraftConfiguration) (ad : AirworthinessDirective) : List String :=
  let m := check_aircraft_model a ad
  ("Model check: " ++ m.2) ::
    (if !m.1 then [] else
      let s := check_msn_constraints a ad
      ("MSN check: " ++ s.2) ::
        (if !s.1 then [] else
          let e := check_excluded_modifications a ad
          ("Excluded mods check: " ++ e.2) ::
            (if e.1 then [] else
              let q := check_required_modifications a ad
              ["Required mods check: " ++ q.2])))

/-- The error a caller receives for a directive identifier that is not in the
loaded collection (spec section 7). -/
structure NotFoundError where
  directive_id : String
deriving DecidableEq

/-- Modelled from the spec: the engine public contract's by-identifier
single-directive operation, `evaluate(aircraft, directiveId) → ComplianceResult
| NotFoundError` (spec section 6). The source's `evaluate` takes the directive
record itself, so the identifier dispatch over the loaded collection is not in
`src/` and is modelled here from the spec's words, delegating to the source's
`evaluate` once the directive is found. -/
def evaluate_by_id (ads : List AirworthinessDirective) (a : AircraftConfiguration)
    (directiveId : String) : Except NotFoundError ComplianceResult :=
  match ads.find? (fun ad => ad.ad_id == directiveId) with
  | some ad => Except.ok (evaluate a ad)
  | none => Except.error ⟨directiveId⟩

/-! Concrete sample data, used by the closed witness and counterexample
theorems below. -/

/-- A directive with one affected model and no further constraints, after the
example of schema lines 125-137. -/
def sampleAd : AirworthinessDirective :=
  ⟨"FAA-2025-23-53", "FAA", none, none, ⟨["MD-11"], none, [], [], []⟩, none⟩

/-- An affected aircraft of the sample directive's model. -/
def sampleAircraft : AircraftConfiguration :=
  ⟨"MD-11", 48123, [], []⟩

/-- A raw directive definition that validates. -/
def rawAdOk : RawAd :=
  ⟨some "FAA-2025-23-53", some "FAA", none, none,
    some ⟨some ["MD-11"], none, none, none, none⟩, none⟩

/-- A raw directive definition whose rules lack the required
`aircraft_models` key. -/
def rawAdBad : RawAd :=
  ⟨some "EASA-2025-0254", some "EASA", none, none,
    some ⟨none, none, none, none, none⟩, none⟩

/-! Supporting lemmas. -/

/-- The executable substring test agrees with `List.IsInfix`. -/
theorem listContainsSub_iff (needle hay : List Char) :
    listContainsSub needle hay = true ↔ needle <:+: hay := by
  induction hay with
  | nil => simp [listContainsSub, List.isEmpty_iff, List.infix_nil]
  | cons c rest ih =>
    simp [listContainsSub, List.infix_cons_iff, List.isPrefixOf_iff_prefix, ih]

/-- The model of Python's `in` agrees with `List.IsInfix` on the character
lists of the two strings. -/
theorem pyIn_iff (needle hay : String) :
    pyIn needle hay = true ↔ needle.toList <:+: hay.toList :=
  listContainsSub_iff needle.toList hay.toList

/-- The empty needle is contained in every haystack. -/
theorem listContainsSub_nil (hay : List Char) : listContainsSub [] hay = true := by
  cases hay <;> simp [listContainsSub, List.isPrefixOf]

/-- `matches` written as one boolean expression. -/
theorem matches_eq (c : ModificationConstraint) (m : String) :
    c.matches m =
      (pyIn (pyLower c.mod_id) (pyStrip (pyLower m)) ||
        c.aliases.any (fun al => pyIn (pyLower al) (pyStrip (pyLower m)))) := by
  unfold ModificationConstraint.matches
  cases h : pyIn (pyLower c.mod_id) (pyStrip (pyLower m)) <;> simp [h]

/-- The excluded-modification search succeeds exactly when some excluded
constraint matches some aircraft modification. -/
theorem find_excluded_match_isSome (excluded : List ModificationConstraint)
    (mods : List String) :
    (find_excluded_match excluded mods).isSome = true ↔
      ∃ em ∈ excluded, ∃ am ∈ mods, em.matches am = true := by
  induction excluded with
  | nil => simp [find_excluded_match]
  | cons em rest ih =>
    simp only [find_excluded_match]
    cases hf : mods.find? (fun am => em.matches am) with
    | some am =>
      have hp : em.matches am = true := List.find?_some hf
      have hm : am ∈ mods := List.mem_of_find?_eq_some hf
      simp only [Option.isSome_some, true_iff, List.mem_cons]
      exact ⟨em, Or.inl rfl, am, hm, hp⟩
    | none =>
      have hnone : ∀ am ∈ mods, ¬ em.matches am = true := List.find?_eq_none.mp hf
      rw [ih]
      constructor
      · rintro ⟨e, he, am, ham, hmt⟩
        exact ⟨e, List.mem_cons_of_mem em he, am, ham, hmt⟩
      · rintro ⟨e, he, am, ham, hmt⟩
        rcases List.mem_cons.mp he with rfl | he
        · exact absurd hmt (hnone am ham)
        · exact ⟨e, he, am, ham, hmt⟩

/-- The required-modification search succeeds exactly when some required
constraint matches some aircraft modification. -/
theorem find_required_match_isSome (required : List ModificationConstraint)
    (mods : List String) :
    (find_required_match required mods).isSome = true ↔
      ∃ rm ∈ required, ∃ am ∈ mods, rm.matches am = true := by
  induction required with
  | nil => simp [find_required_match]
  | cons rm rest ih =>
    simp only [find_required_match]
    cases hf : mods.any (fun am => rm.matches am) with
    | true =>
      obtain ⟨am, ham, hp⟩ := List.any_eq_true.mp hf
      constructor
      · intro _
        exact ⟨rm, List.mem_cons_self rm rest, am, ham, hp⟩
      · intro _
        simp
    | false =>
      have hnone : ∀ am ∈ mods, ¬ rm.matches am = true := by
        intro am ham hmt
        exact (List.any_eq_false.mp hf am ham) hmt
      simp only [Bool.false_eq_true, if_false]
      rw [ih]
      constructor
      · rintro ⟨e, he, am, ham, hmt⟩
        exact ⟨e, List.mem_cons_of_mem rm he, am, ham, hmt⟩
      · rintro ⟨e, he, am, ham, hmt⟩
        rcases List.mem_cons.mp he with rfl | he
        · exact absurd hmt (hnone am ham)
        · exact ⟨e, he, am, ham, hmt⟩

/-- The boolean of the exclusion stage: true exactly when some excluded
constraint matches some aircraft modification. -/
theorem check_excluded_true_iff (a : AircraftConfiguration) (ad : AirworthinessDirective) :
    (check_excluded_modifications a ad).1 = true ↔
      ∃ em ∈ ad.applicability_rules.excluded_if_modifications,
        ∃ am ∈ a.modifications, em.matches am = true := by
  rw [← find_excluded_match_isSome]
  unfold check_excluded_modifications
  cases h : find_excluded_match ad.applicability_rules.excluded_if_modifications
      a.modifications with
  | none => constructor <;> intro hc <;> simp_all <;> split at hc <;> simp_all
  | some p => simp

/-- The boolean of the requirement stage: true exactly when the required list
is empty or some required constraint matches some aircraft modification. -/
theorem check_required_true_iff (a : AircraftConfiguration) (ad : AirworthinessDirective) :
    (check_required_modifications a ad).1 = true ↔
      (ad.applicability_rules.required_modifications = [] ∨
        ∃ rm ∈ ad.applicability_rules.required_modifications,
          ∃ am ∈ a.modifications, rm.matches am = true) := by
  unfold check_required_modifications
  cases he : ad.applicability_rules.required_modifications.isEmpty with
  | true => simp_all [List.isEmpty_iff]
  | false =>
    rw [if_neg (by simp [he])]
    have hne : ad.applicability_rules.required_modifications ≠ [] := by
      simpa [List.isEmpty_iff] using he
    rw [← find_required_match_isSome ad.applicability_rules.required_modifications
      a.modifications] at *
    cases hf : find_required_match ad.applicability_rules.required_modifications
        a.modifications <;> simp_all

/-- The boolean of the model stage: true exactly when the aircraft's model is
in the directive's affected-models list. -/
theorem check_aircraft_model_true_iff (a : AircraftConfiguration) (ad : AirworthinessDirective) :
    (check_aircraft_model a ad).1 = true ↔
      a.aircraft_model ∈ ad.applicability_rules.aircraft_models := by
  unfold check_aircraft_model
  split
  · simp_all
  · simp_all

/-- RANGE matching spelt out: inside the inclusive bounds, each bound
vacuous when absent. -/
theorem msn_matches_range (mn mx : Option Int) (vs : Option (List Int)) (msn : Int) :
    (MSNConstraint.mk MSNConstraintType.RANGE mn mx vs).matches msn = true ↔
      ((∀ m ∈ mn, m ≤ msn) ∧ (∀ m ∈ mx, msn ≤ m)) := by
  rcases mn with _ | m <;> rcases mx with _ | M <;>
    simp [MSNConstraint.matches]

/-! Claim theorems. -/

/-- C1: for every aircraft configuration and directive, `evaluate` returns a
result whose status is one of "yes", "no" and "not applicable", and whose
`is_affected` field is true exactly when the status is "yes". -/
theorem c1_status_and_affected (a : AircraftConfiguration) (ad : AirworthinessDirective) :
    ((evaluate a ad).status = "yes" ∨ (evaluate a ad).status = "no" ∨
      (evaluate a ad).status = "not applicable") ∧
    ((evaluate a ad).is_affected = true ↔ (evaluate a ad).status = "yes") := by
  unfold evaluate
  cases hm : (check_aircraft_model a ad).1 <;>
    cases hs : (check_msn_constraints a ad).1 <;>
      cases he : (check_excluded_modifications a ad).1 <;>
        cases hr : (check_required_modifications a ad).1 <;>
          simp [hm, hs, he, hr]

/-- C1 witness: the trichotomy and the affected-status agreement at a
concrete aircraft and directive. -/
theorem c1_witness :
    ((evaluate sampleAircraft sampleAd).status = "yes" ∨
      (evaluate sampleAircraft sampleAd).status = "no" ∨
      (evaluate sampleAircraft sampleAd).status = "not applicable") ∧
    ((evaluate sampleAircraft sampleAd).is_affected = true ↔
      (evaluate sampleAircraft sampleAd).status = "yes") :=
  c1_status_and_affected sampleAircraft sampleAd

/-- C9: the reason field of every result is the semicolon-joined trail of one
labelled entry per stage actually executed, in stage order, with nothing
recorded for stages after a short-circuit. -/
theorem c9_reason_trail (a : AircraftConfiguration) (ad : AirworthinessDirective) :
    (evaluate a ad).reason = String.intercalate "; " (stage_trail a ad) := by
  unfold evaluate stage_trail
  cases hm : (check_aircraft_model a ad).1 <;>
    cases hs : (check_msn_constraints a ad).1 <;>
      cases he : (check_excluded_modifications a ad).1 <;>
        cases hr : (check_required_modifications a ad).1 <;>
          simp [hm, hs, he, hr]

/-- C4: an aircraft whose model is not in the directive's list gets status
"not applicable" and `is_affected = false`, with a result that depends on
neither serial number nor modifications and whose trail holds the model
entry alone: the later stages were never executed. -/
theorem c4_model_mismatch (a : AircraftConfiguration) (ad : AirworthinessDirective)
    (h : a.aircraft_model ∉ ad.applicability_rules.aircraft_models) :
    evaluate a ad =
      ⟨ad.ad_id, a.aircraft_model, a.msn, false, "not applicable",
        "Model check: Aircraft model \x27" ++ a.aircraft_model ++
          "\x27 is not in the affected models list"⟩ := by
  unfold evaluate check_aircraft_model
  rw [if_neg h]
  rfl

/-- An aircraft whose model the sample directive does not affect. -/
def otherAircraft : AircraftConfiguration := ⟨"Boeing 737-800", 30123, [], []⟩

/-- C4 witness: the model-mismatch short-circuit at a concrete aircraft and
directive. -/
theorem c4_witness :
    evaluate otherAircraft sampleAd =
      ⟨sampleAd.ad_id, otherAircraft.aircraft_model, otherAircraft.msn, false,
        "not applicable",
        "Model check: Aircraft model \x27" ++ otherAircraft.aircraft_model ++
          "\x27 is not in the affected models list"⟩ :=
  c4_model_mismatch otherAircraft sampleAd (by decide)

/-- C3 counterexample: an id with surrounding whitespace. Under the claim's
normalisation (trim and case-fold id and text alike) the constraint with id
" x" matches the text "x"; the code leaves the id untrimmed and does not
match. -/
theorem c3_counterexample :
    modificationMatchesSpec ⟨" x", [], none⟩ "x" = true ∧
    ModificationConstraint.matches ⟨" x", [], none⟩ "x" = false := by
  decide

/-- C3 as amended: `matches` returns true exactly when the case-folded id, or
the case-folded form of some alias, is a substring of the trimmed, case-folded
text; the id and aliases themselves are case-folded only, never trimmed. -/
theorem c3_matches_normalisation (c : ModificationConstraint) (text : String) :
    c.matches text = true ↔
      ((pyLower c.mod_id).toList <:+: (pyStrip (pyLower text)).toList ∨
        ∃ al ∈ c.aliases, (pyLower al).toList <:+: (pyStrip (pyLower text)).toList) := by
  rw [matches_eq]
  simp [pyIn_iff]

/-- C3 witness: the normalisation characterisation at a concrete constraint
and revision-suffixed text. -/
theorem c3_witness :
    ModificationConstraint.matches ⟨"sb a320-57-1089", [], none⟩ "SB A320-57-1089 Rev 04" = true ↔
      ((pyLower "sb a320-57-1089").toList <:+:
          (pyStrip (pyLower "SB A320-57-1089 Rev 04")).toList ∨
        ∃ al ∈ ([] : List String),
          (pyLower al).toList <:+: (pyStrip (pyLower "SB A320-57-1089 Rev 04")).toList) :=
  c3_matches_normalisation ⟨"sb a320-57-1089", [], none⟩ "SB A320-57-1089 Rev 04"

/-- C5: MSN matching — ALL always matches; RANGE matches exactly inside the
inclusive bounds with an absent bound unconstrained; LIST matches exactly the
members of the values list; and the 100..200 range accepts 100, 150 and 200
while rejecting 99 and 201. -/
theorem c5_msn_matches (c : MSNConstraint) (msn : Int) :
    (c.type = MSNConstraintType.ALL → c.matches msn = true) ∧
    (c.type = MSNConstraintType.RANGE →
      (c.matches msn = true ↔
        ((∀ m ∈ c.min_msn, m ≤ msn) ∧ (∀ m ∈ c.max_msn, msn ≤ m)))) ∧
    (c.type = MSNConstraintType.LIST →
      (c.matches msn = true ↔ msn ∈ c.msn_list.getD [])) ∧
    (c.type = MSNConstraintType.RANGE → c.min_msn = some 100 → c.max_msn = some 200 →
      (c.matches 99 = false ∧ c.matches 100 = true ∧ c.matches 150 = true ∧
        c.matches 200 = true ∧ c.matches 201 = false)) := by
  obtain ⟨t, mn, mx, vs⟩ := c
  refine ⟨?_, ?_, ?_, ?_⟩
  · rintro rfl
    rfl
  · rintro rfl
    exact msn_matches_range mn mx vs msn
  · rintro rfl
    simp [MSNConstraint.matches]
  · rintro rfl h1 h2
    simp only at h1 h2
    subst h1
    subst h2
    exact ⟨rfl, rfl, rfl, rfl, rfl⟩

/-- C5 witness: the RANGE bounds at the concrete 100..200 constraint. -/
theorem c5_witness :
    (MSNConstraint.mk MSNConstraintType.RANGE (some 100) (some 200) none).matches 99 = false ∧
    (MSNConstraint.mk MSNConstraintType.RANGE (some 100) (some 200) none).matches 100 = true ∧
    (MSNConstraint.mk MSNConstraintType.RANGE (some 100) (some 200) none).matches 150 = true ∧
    (MSNConstraint.mk MSNConstraintType.RANGE (some 100) (some 200) none).matches 200 = true ∧
    (MSNConstraint.mk MSNConstraintType.RANGE (some 100) (some 200) none).matches 201 = false :=
  (c5_msn_matches (MSNConstraint.mk MSNConstraintType.RANGE (some 100) (some 200) none)
    150).2.2.2 rfl rfl rfl

/-- C6: exclusion dominates requirement. For an aircraft that passes the model
and serial stages, any excluded-modification match forces status "no" with
`is_affected = false` — whatever the required list holds — and the trail stops
at the exclusion entry, the requirement stage never contributing. -/
theorem c6_exclusion_dominates (a : AircraftConfiguration) (ad : AirworthinessDirective)
    (h1 : a.aircraft_model ∈ ad.applicability_rules.aircraft_models)
    (h2 : (check_msn_constraints a ad).1 = true)
    (h3 : ∃ em ∈ ad.applicability_rules.excluded_if_modifications,
            ∃ am ∈ a.modifications, em.matches am = true) :
    (evaluate a ad).status = "no" ∧ (evaluate a ad).is_affected = false ∧
    (evaluate a ad).reason = String.intercalate "; "
      ["Model check: " ++ (check_aircraft_model a ad).2,
        "MSN check: " ++ (check_msn_constraints a ad).2,
        "Excluded mods check: " ++ (check_excluded_modifications a ad).2] := by
  have hm : (check_aircraft_model a ad).1 = true :=
    (check_aircraft_model_true_iff a ad).mpr h1
  have he : (check_excluded_modifications a ad).1 = true :=
    (check_excluded_true_iff a ad).mpr h3
  unfold evaluate
  simp [hm, h2, he]

/-- A directive carrying the same constraint both as excluded and as
required, after the EASA scenario of the repository's test fleet. -/
def excludedAd : AirworthinessDirective :=
  ⟨"EASA-2025-0254", "EASA", none, none,
    ⟨["A320-214"], none, [⟨"mod 24591", [], none⟩], [⟨"mod 24591", [], none⟩], []⟩, none⟩

/-- An aircraft matching that constraint through its one modification. -/
def excludedAircraft : AircraftConfiguration :=
  ⟨"A320-214", 5234, ["mod 24591 (production)"], []⟩

/-- C6 witness: an aircraft matching both the excluded and the required
constraint comes out "no", with a three-entry trail. -/
theorem c6_witness :
    (evaluate excludedAircraft excludedAd).status = "no" ∧
    (evaluate excludedAircraft excludedAd).is_affected = false ∧
    (evaluate excludedAircraft excludedAd).reason = String.intercalate "; "
      ["Model check: " ++ (check_aircraft_model excludedAircraft excludedAd).2,
        "MSN check: " ++ (check_msn_constraints excludedAircraft excludedAd).2,
        "Excluded mods check: " ++
          (check_excluded_modifications excludedAircraft excludedAd).2] :=
  c6_exclusion_dominates excludedAircraft excludedAd (by decide) (by decide)
    ⟨⟨"mod 24591", [], none⟩, by decide, "mod 24591 (production)", by decide, by decide⟩

/-- C10: a modification constraint whose id is the empty string is a value of
the model like any other, and its `matches` accepts every text, since the
empty needle is a substring of everything; hence a required entry with empty
id is satisfied by any aircraft carrying at least one modification, and an
excluded entry with empty id excludes any such aircraft. -/
theorem c10_empty_mod_id (al : List String) (d : Option String) :
    (∀ s : String, (ModificationConstraint.mk "" al d).matches s = true) ∧
    (∀ (a : AircraftConfiguration) (ad : AirworthinessDirective),
      ModificationConstraint.mk "" al d ∈ ad.applicability_rules.required_modifications →
      a.modifications ≠ [] →
      (check_required_modifications a ad).1 = true) ∧
    (∀ (a : AircraftConfiguration) (ad : AirworthinessDirective),
      ModificationConstraint.mk "" al d ∈ ad.applicability_rules.excluded_if_modifications →
      a.modifications ≠ [] →
      (check_excluded_modifications a ad).1 = true) := by
  have hl : pyLower "" = "" := rfl
  have hmatch : ∀ s : String, (ModificationConstraint.mk "" al d).matches s = true := by
    intro s
    have hin : pyIn "" (pyStrip (pyLower s)) = true := listContainsSub_nil _
    simp [ModificationConstraint.matches, hl, hin]
  refine ⟨hmatch, ?_, ?_⟩
  · intro a ad hmem hne
    rw [check_required_true_iff]
    obtain ⟨am, ham⟩ := List.exists_mem_of_ne_nil _ hne
    exact Or.inr ⟨_, hmem, am, ham, hmatch am⟩
  · intro a ad hmem hne
    rw [check_excluded_true_iff]
    obtain ⟨am, ham⟩ := List.exists_mem_of_ne_nil _ hne
    exact ⟨_, hmem, am, ham, hmatch am⟩

/-- A directive whose excluded and required lists both hold an empty-id
constraint. -/
def emptyIdAd : AirworthinessDirective :=
  ⟨"AD-EMPTY", "FAA", none, none,
    ⟨["MD-11"], none, [⟨"", [], none⟩], [⟨"", [], none⟩], []⟩, none⟩

/-- An aircraft with one modification. -/
def moddedAircraft : AircraftConfiguration := ⟨"MD-11", 1, ["anything"], []⟩

/-- C10 witness: the empty-id constraint at a concrete text, and the two
stage booleans at a concrete aircraft and directive. -/
theorem c10_witness :
    ModificationConstraint.matches ⟨"", [], none⟩ "SB A320" = true ∧
    (check_required_modifications moddedAircraft emptyIdAd).1 = true ∧
    (check_excluded_modifications moddedAircraft emptyIdAd).1 = true :=
  ⟨(c10_empty_mod_id [] none).1 "SB A320",
    (c10_empty_mod_id [] none).2.1 moddedAircraft emptyIdAd (by decide) (by decide),
    (c10_empty_mod_id [] none).2.2 moddedAircraft emptyIdAd (by decide) (by decide)⟩

/-- C7: the by-identifier single-directive operation yields a NotFoundError
carrying the identifier exactly when no loaded directive bears it, and
otherwise the ComplianceResult the source's evaluate produces for the found
directive — one of the two, for every call. -/
theorem c7_unknown_directive (ads : List AirworthinessDirective)
    (a : AircraftConfiguration) (directiveId : String) :
    ((∀ ad ∈ ads, ad.ad_id ≠ directiveId) →
      evaluate_by_id ads a directiveId = Except.error ⟨directiveId⟩) ∧
    ((∃ ad ∈ ads, ad.ad_id = directiveId) →
      ∃ ad ∈ ads, ad.ad_id = directiveId ∧
        evaluate_by_id ads a directiveId = Except.ok (evaluate a ad)) := by
  constructor
  · intro h
    have hnone : ads.find? (fun ad => ad.ad_id == directiveId) = none :=
      List.find?_eq_none.mpr (fun x hx => by simp [h x hx])
    unfold evaluate_by_id
    rw [hnone]
  · intro h
    unfold evaluate_by_id
    cases hf : ads.find? (fun ad => ad.ad_id == directiveId) with
    | none =>
      obtain ⟨ad, had, hid⟩ := h
      have := List.find?_eq_none.mp hf ad had
      simp [hid] at this
    | some ad =>
      have hmem := List.mem_of_find?_eq_some hf
      have hid : ad.ad_id = directiveId := by simpa using List.find?_some hf
      exact ⟨ad, hmem, hid, rfl⟩

/-- C7 witness: an identifier not among the loaded directives surfaces the
NotFoundError at a concrete engine state. -/
theorem c7_witness :
    evaluate_by_id [sampleAd] sampleAircraft "EASA-2025-0254" =
      Except.error ⟨"EASA-2025-0254"⟩ :=
  (c7_unknown_directive [sampleAd] sampleAircraft "EASA-2025-0254").1 (by decide)

/-- C2 counterexample: loading a two-entry source whose second entry lacks
`aircraft_models` fails, yet the collection afterwards holds one directive —
a directive admitted from the failing source. -/
theorem c2_counterexample :
    (load_rules_from [] [rawAdOk, rawAdBad]).2 =
      some (LoadError.missingField "aircraft_models") ∧
    (load_rules_from [] [rawAdOk, rawAdBad]).1.length = 1 := by
  decide

/-- C2 as amended: a load-time error aborts the call at the first invalid
entry, which is never admitted and after which nothing is examined; but the
valid entries before it have already been appended, so the collection after
the failed call is the prior collection extended by the failing source's
valid prefix — not the unchanged prior collection. -/
theorem c2_load_error_partial (ads0 : List AirworthinessDirective)
    (pre : List RawAd) (bad : RawAd) (rest : List RawAd) (e : LoadError)
    (hpre : ∀ r ∈ pre, ((validateAd r).toOption).isSome = true)
    (hbad : validateAd bad = Except.error e) :
    load_rules_from ads0 (pre ++ bad :: rest) =
      (ads0 ++ pre.filterMap (fun r => (validateAd r).toOption), some e) := by
  revert hpre
  induction pre generalizing ads0 with
  | nil =>
    intro _
    simp [load_rules_from, hbad]
  | cons r rs ih =>
    intro hpre
    have hr := hpre r (List.mem_cons_self r rs)
    obtain ⟨ad, had⟩ := Option.isSome_iff_exists.mp hr
    have hok : validateAd r = Except.ok ad := by
      cases hv : validateAd r with
      | error e2 =>
        rw [hv] at had
        exact absurd had (by simp [Except.toOption])
      | ok a2 =>
        rw [hv] at had
        have ha : a2 = ad := by simpa [Except.toOption] using had
        rw [ha]
    simp only [List.cons_append, load_rules_from, hok, List.append_eq]
    rw [ih (ads0 ++ [ad]) (fun x hx => hpre x (List.mem_cons_of_mem r hx))]
    simp [List.filterMap_cons, hok, Except.toOption]

/-- C2 witness: the amended load behaviour at the concrete two-entry source
of the counterexample. -/
theorem c2_witness :
    load_rules_from [] ([rawAdOk] ++ rawAdBad :: []) =
      ([] ++ [rawAdOk].filterMap (fun r => (validateAd r).toOption),
        some (LoadError.missingField "aircraft_models")) :=
  c2_load_error_partial [] [rawAdOk] rawAdBad [] (LoadError.missingField "aircraft_models")
    (by decide) (by rfl)

/-- Inserting a key no entry of the dictionary holds appends a new entry. -/
theorem dictInsert_not_mem (d : List (String × List ComplianceResult)) (k : String)
    (v : List ComplianceResult) (h : ∀ p ∈ d, p.1 ≠ k) :
    dictInsert d k v = d ++ [(k, v)] := by
  have hfalse : d.any (fun p => p.1 == k) = false := by
    rw [List.any_eq_false]
    intro p hp
    simp [h p hp]
  simp [dictInsert, hfalse]

/-- The fleet fold with pairwise-distinct keys grows the accumulator by one
appended entry per aircraft, in input order. -/
theorem evaluate_fleet_foldl (ads : List AirworthinessDirective)
    (fleet : List AircraftConfiguration) :
    ∀ acc : List (String × List ComplianceResult),
      (∀ a ∈ fleet, ∀ p ∈ acc, p.1 ≠ aircraft_key a) →
      (fleet.map aircraft_key).Nodup →
      fleet.foldl (fun d a => dictInsert d (aircraft_key a) (evaluate_all ads a)) acc =
        acc ++ fleet.map (fun a => (aircraft_key a, evaluate_all ads a)) := by
  induction fleet with
  | nil =>
    intro acc _ _
    simp
  | cons a rest ih =>
    intro acc hdisj hnodup
    have hnodup' : aircraft_key a ∉ rest.map aircraft_key ∧
        (rest.map aircraft_key).Nodup := by
      rw [← List.nodup_cons]
      simpa using hnodup
    simp only [List.foldl_cons, List.map_cons]
    rw [dictInsert_not_mem _ _ _ (fun p hp => hdisj a (List.mem_cons_self a rest) p hp)]
    rw [ih (acc ++ [(aircraft_key a, evaluate_all ads a)]) ?hd hnodup'.2]
    · simp
    case hd =>
      intro x hx p hp
      rcases List.mem_append.mp hp with hmem | hmem
      · exact hdisj x (List.mem_cons_of_mem a hx) p hmem
      · have hp1 : p.1 = aircraft_key a := by
          rcases List.mem_singleton.mp hmem with rfl
          rfl
        rw [hp1]
        intro hcontra
        exact hnodup'.1 (hcontra ▸ List.mem_map_of_mem aircraft_key hx)

/-- C8 counterexample: the two aircraft ("X", serial -2) and ("X-", serial 2)
have distinct (model, serial) identity pairs but the same rendered key
"X--2", so a two-aircraft fleet yields a one-key mapping. -/
theorem c8_counterexample :
    ¬ ((AircraftConfiguration.mk "X" (-2) [] []).aircraft_model =
          (AircraftConfiguration.mk "X-" 2 [] []).aircraft_model ∧
        (AircraftConfiguration.mk "X" (-2) [] []).msn =
          (AircraftConfiguration.mk "X-" 2 [] []).msn) ∧
    (evaluate_fleet [] [AircraftConfiguration.mk "X" (-2) [] [],
        AircraftConfiguration.mk "X-" 2 [] []]).length = 1 := by
  decide

/-- C8 as amended: when the rendered keys model ++ "-" ++ serial are pairwise
distinct — which distinctness of the (model, serial) pairs alone does not
guarantee — evaluate_fleet returns one entry per aircraft, in input order,
each carrying the evaluate_all list with one result per directive in load
order. -/
theorem c8_fleet_mapping (ads : List AirworthinessDirective)
    (fleet : List AircraftConfiguration)
    (h : (fleet.map aircraft_key).Nodup) :
    evaluate_fleet ads fleet =
      fleet.map (fun a => (aircraft_key a, evaluate_all ads a)) ∧
    (evaluate_fleet ads fleet).length = fleet.length ∧
    ∀ a ∈ fleet, (evaluate_all ads a).length = ads.length := by
  have hmain := evaluate_fleet_foldl ads fleet [] (by simp) h
  refine ⟨by simpa [evaluate_fleet] using hmain, ?_, ?_⟩
  · rw [show evaluate_fleet ads fleet =
      fleet.map (fun a => (aircraft_key a, evaluate_all ads a)) from
        by simpa [evaluate_fleet] using hmain]
    simp
  · intro a _
    simp [evaluate_all]

/-- C8 witness: the amended fleet mapping at a concrete two-aircraft fleet
with distinct keys and one directive. -/
theorem c8_witness :
    evaluate_fleet [sampleAd] [sampleAircraft, otherAircraft] =
      [sampleAircraft, otherAircraft].map
        (fun a => (aircraft_key a, evaluate_all [sampleAd] a)) ∧
    (evaluate_fleet [sampleAd] [sampleAircraft, otherAircraft]).length = 2 ∧
    ∀ a ∈ [sampleAircraft, otherAircraft],
      (evaluate_all [sampleAd] a).length = 1 :=
  c8_fleet_mapping [sampleAd] [sampleAircraft, otherAircraft] (by decide)

end ADCompliance
